import Mathlib

/-!
Shallow embedding of `snikket_web/invite.py`: the invite-flow endpoints
(`view`, `register`, `reset`, `success`, `reset_success`) of the
snikket-web-portal repository.

Modelling conventions:
* The remote account client (`client.get_public_invite_by_id`,
  `client.register_with_token`) is an external collaborator; each handler
  takes the outcome of the remote call it would perform as a parameter:
  `Except Nat α` where `Except.error s` stands for an
  `aiohttp.ClientResponseError` with HTTP status `s`.
* A handler's Python body either returns a response or lets an exception
  escape; we model this as `Except PyError Response`, where `PyError.error`
  is a fatal (uncaught) exception.
* The browser session (`quart.session`) is a string-keyed dictionary; we
  model it as an association list updated by prepending, with lookup taking
  the most recent binding, which matches dictionary get/set observations.
* `register`/`reset` additionally return the (possibly absent) argument
  tuple of the `client.register_with_token` call they issued, so that
  "no remote call is issued" is expressible.
* Form validation follows the validators declared in the source on top of
  standard wtforms semantics: `StringField`/`PasswordField` without
  validators always validate (missing fields process to the empty string);
  `InputRequired` fails on empty raw input with the message
  "This field is required." and stops further validators of that field;
  `EqualTo "password"` fails when the two data values differ, with the
  message declared in the source ("The passwords must match.").
  `validate_on_submit` is true exactly on a POST whose validators all pass.
-/

namespace SnikketInvite

/-- An invite as returned by `client.get_public_invite_by_id`: the fields the
source reads are `domain`, `reset_localpart` (optional; presence marks a
password-reset invite) and `xmpp_uri`. -/
structure Invite where
  domain : String
  reset_localpart : Option String
  xmpp_uri : String
deriving Repr, DecidableEq

/-- HTTP request method for the routes (`GET` or `POST`). -/
inductive Method
  | get
  | post
deriving Repr, DecidableEq, BEq

/-- The browser session store: a string-keyed dictionary. -/
abbrev Session := List (String × String)

/-- The session key used by the module for the freshly created account JID. -/
def INVITE_SESSION_JID : String := "invite-session-jid"

/-- Dictionary write `session[k] = v` (prepend; lookup takes the newest). -/
def sessionSet (s : Session) (k v : String) : Session :=
  (k, v) :: s

/-- Dictionary read `session.get(k, d)`. -/
def sessionGet (s : Session) (k d : String) : String :=
  match s.find? (fun p => p.1 == k) with
  | some p => p.2
  | none => d

/-- An exception escaping a handler (a fatal error for the request). -/
inductive PyError
  | clientResponseError (status : Nat)
  | unboundLocalError (varName : String)
  | attributeError (attr : String)
deriving Repr, DecidableEq

/-- Targets of `url_for` redirects inside the blueprint. -/
inductive Url
  | view (id_ : String)
  | register (id_ : String)
  | reset (id_ : String)
  | success
  | reset_success
deriving Repr, DecidableEq

/-- Uppercase hexadecimal digit, as used by `urllib.parse.quote`. -/
def hexUpper (n : Nat) : Char :=
  if n < 10 then Char.ofNat (48 + n) else Char.ofNat (55 + n)

/-- `urllib.parse.quote_plus` on a single UTF-8 byte: space becomes `+`,
ASCII alphanumerics and `_.-~` are kept, everything else is `%XX`. -/
def quotePlusByte (b : UInt8) : String :=
  let n := b.toNat
  if n = 32 then "+"
  else if (48 ≤ n ∧ n ≤ 57) ∨ (65 ≤ n ∧ n ≤ 90) ∨ (97 ≤ n ∧ n ≤ 122)
      ∨ n = 95 ∨ n = 46 ∨ n = 45 ∨ n = 126 then
    String.singleton (Char.ofNat n)
  else
    "%" ++ String.singleton (hexUpper (n / 16)) ++ String.singleton (hexUpper (n % 16))

/-- `urllib.parse.quote_plus` over the UTF-8 encoding of a string. -/
def quotePlus (s : String) : String :=
  String.join (s.toUTF8.toList.map quotePlusByte)

/-- `urllib.parse.urlencode` over a sequence of key/value pairs. -/
def urlencode (ps : List (String × String)) : String :=
  String.intercalate "&" (ps.map (fun p => quotePlus p.1 ++ "=" ++ quotePlus p.2))

/-- The `play_store_url` computed by `view` for a register-type invite. -/
def play_store_url (xmpp_uri : String) : String :=
  "market://details?" ++
    urlencode
      [("id", "org.snikket.android"),
       ("referrer", xmpp_uri),
       ("pcampaignid",
        "pcampaignidMKT-Other-global-all-co-prtnr-py-PartBadge-Mar2515-1")]

/-- Responses of the `view` endpoint: the invalid-invite page (with its
response status code), the reset-flow view page (returned as a bare template
string, so with no extra headers), or the main view page wrapped in a
`quart.Response` carrying a `Link` header. -/
inductive ViewResponse
  | invalidPage (template : String) (status : Nat)
  | resetViewPage (template : String) (invite : Invite) (invite_id : String)
      (account_jid : String)
  | mainPage (template : String) (invite : Invite) (invite_id : String)
      (play_store : String) (apple_store : String) (f_droid : String)
      (linkHeader : String)
deriving Repr, DecidableEq

/-- The `Link` response header carried by a `view` response, if any: only the
main view page is wrapped in a `quart.Response` with headers. -/
def ViewResponse.linkHeaderOf : ViewResponse → Option String
  | .mainPage _ _ _ _ _ _ l => some l
  | _ => none

/-- Handler `view(id_)` (route `GET /<id_>/`). `fetch` is the outcome of
`client.get_public_invite_by_id(id_)`; `apple_store_url` is
`current_app.config["APPLE_STORE_URL"]`. -/
def view (id_ : String) (fetch : Except Nat Invite) (apple_store_url : String) :
    Except PyError ViewResponse :=
  match fetch with
  | .error status =>
    if status = 404 then
      .ok (.invalidPage "invite_invalid.html" 404)
    else
      -- the source re-raises the ClientResponseError here
      .error (.clientResponseError status)
  | .ok invite =>
    match invite.reset_localpart with
    | some rl =>
      .ok (.resetViewPage "invite_reset_view.html" invite id_
        (rl ++ "@" ++ invite.domain))
    | none =>
      .ok (.mainPage "invite_view.html" invite id_
        (play_store_url invite.xmpp_uri)
        apple_store_url
        "market://details?id=org.snikket.android"
        ("<" ++ invite.xmpp_uri ++ "> rel=\"alternate\""))

/-- Raw submission data of `RegisterForm`; a field absent from the form data
processes to the empty string under wtforms. -/
structure RegisterFormData where
  localpart : String
  password : String
  password_confirm : String
deriving Repr, DecidableEq

/-- Validation errors of the `password_confirm` field of `RegisterForm`
(`InputRequired`, then `EqualTo "password"`); `localpart` and `password`
declare no validators in the source, so they never produce errors. -/
def RegisterFormData.confirmErrors (fd : RegisterFormData) : List String :=
  if fd.password_confirm = "" then ["This field is required."]
  else if fd.password_confirm ≠ fd.password then ["The passwords must match."]
  else []

/-- `RegisterForm.validate()`: true iff all declared validators pass. -/
def RegisterFormData.validateB (fd : RegisterFormData) : Bool :=
  fd.confirmErrors.isEmpty

/-- The state of a `RegisterForm` as handed to the template: each field's
data and error list. -/
structure RegisterFormState where
  localpart_data : String
  password_data : String
  password_confirm_data : String
  localpart_errors : List String
  password_errors : List String
  password_confirm_errors : List String
deriving Repr, DecidableEq

/-- A `RegisterForm` built outside a submission (no form data processed,
no validators run). -/
def RegisterFormState.initial : RegisterFormState :=
  ⟨"", "", "", [], [], []⟩

/-- A `RegisterForm` after processing submitted data and running
`validate()`. -/
def RegisterFormState.afterValidate (fd : RegisterFormData) : RegisterFormState :=
  ⟨fd.localpart, fd.password, fd.password_confirm, [], [], fd.confirmErrors⟩

/-- `form.localpart.errors.append(msg)`. -/
def RegisterFormState.appendLocalpartError (f : RegisterFormState) (msg : String) :
    RegisterFormState :=
  { f with localpart_errors := f.localpart_errors ++ [msg] }

/-- The keyword arguments of a `client.register_with_token` call. -/
structure RegisterCallArgs where
  username : String
  password : String
  token : String
deriving Repr, DecidableEq

/-- Responses of the `register` endpoint. -/
inductive RegisterResponse
  | redirect (u : Url)
  | page (template : String) (invite : Invite) (form : RegisterFormState)
deriving Repr, DecidableEq

/-- Handler `register(id_)` (route `GET|POST /<id_>/register`). `fetch` is the
outcome of `client.get_public_invite_by_id(id_)`; `remote` the outcome the
`client.register_with_token` call would have (consulted only if the call is
issued). Returns the handler outcome, the session after the request, and the
arguments of the remote register call if one was issued.

Note on the fetch failure path: the source's `except` block only handles
status 404 (returning a redirect) and does not re-raise otherwise; for any
other status execution falls through to `invite.reset_localpart` with
`invite` unbound, raising `UnboundLocalError`. -/
def register (id_ : String) (fetch : Except Nat Invite) (method : Method)
    (fd : RegisterFormData) (remote : Except Nat String) (sess : Session) :
    Except PyError RegisterResponse × Session × Option RegisterCallArgs :=
  match fetch with
  | .error status =>
    if status = 404 then
      (.ok (.redirect (.view id_)), sess, none)
    else
      (.error (.unboundLocalError "invite"), sess, none)
  | .ok invite =>
    if invite.reset_localpart.isSome then
      (.ok (.redirect (.reset id_)), sess, none)
    else if method = Method.post ∧ fd.validateB then
      let args : RegisterCallArgs := ⟨fd.localpart, fd.password, id_⟩
      let form := RegisterFormState.afterValidate fd
      match remote with
      | .ok jid =>
        (.ok (.redirect .success), sessionSet sess INVITE_SESSION_JID jid, some args)
      | .error status =>
        if status = 409 then
          (.ok (.page "invite_register.html" invite
            (form.appendLocalpartError "That username is already taken.")),
           sess, some args)
        else if status = 403 then
          (.ok (.page "invite_register.html" invite
            (form.appendLocalpartError
              "Registration was declined for unknown reasons.")),
           sess, some args)
        else if status = 400 then
          (.ok (.page "invite_register.html" invite
            (form.appendLocalpartError "The username is not valid.")),
           sess, some args)
        else if status = 404 then
          (.ok (.redirect (.view id_)), sess, some args)
        else
          -- the source re-raises the ClientResponseError here
          (.error (.clientResponseError status), sess, some args)
    else
      -- validate_on_submit() was false: GET renders a fresh form, an invalid
      -- POST renders the submitted form with its validation errors
      let form :=
        if method = Method.post then RegisterFormState.afterValidate fd
        else RegisterFormState.initial
      (.ok (.page "invite_register.html" invite form), sess, none)

/-- Raw submission data of `ResetForm` (no username field: the form declares
only `password`, `password_confirm` and the submit button). -/
structure ResetFormData where
  password : String
  password_confirm : String
deriving Repr, DecidableEq

/-- Validation errors of the `password_confirm` field of `ResetForm`
(same validators as in `RegisterForm`). -/
def ResetFormData.confirmErrors (fd : ResetFormData) : List String :=
  if fd.password_confirm = "" then ["This field is required."]
  else if fd.password_confirm ≠ fd.password then ["The passwords must match."]
  else []

/-- `ResetForm.validate()`. -/
def ResetFormData.validateB (fd : ResetFormData) : Bool :=
  fd.confirmErrors.isEmpty

/-- The state of a `ResetForm` as handed to the template. -/
structure ResetFormState where
  password_data : String
  password_confirm_data : String
  password_errors : List String
  password_confirm_errors : List String
deriving Repr, DecidableEq

/-- A `ResetForm` built outside a submission. -/
def ResetFormState.initial : ResetFormState :=
  ⟨"", "", [], []⟩

/-- A `ResetForm` after processing submitted data and running `validate()`. -/
def ResetFormState.afterValidate (fd : ResetFormData) : ResetFormState :=
  ⟨fd.password, fd.password_confirm, [], fd.confirmErrors⟩

/-- Responses of the `reset` endpoint. -/
inductive ResetResponse
  | redirect (u : Url)
  | page (template : String) (invite : Invite) (form : ResetFormState)
deriving Repr, DecidableEq

/-- Handler `reset(id_)` (route `GET|POST /<id_>/reset`). Same conventions as
`register`.

The fetch failure path behaves like `register`'s: only status 404 is handled,
any other caught status falls through to an unbound `invite`, raising
`UnboundLocalError`.

On a 403 from the remote register call the source executes
`form.localpart.errors.append(...)`, but `ResetForm` declares no `localpart`
field, so that attribute access raises `AttributeError`. -/
def reset (id_ : String) (fetch : Except Nat Invite) (method : Method)
    (fd : ResetFormData) (remote : Except Nat String) (sess : Session) :
    Except PyError ResetResponse × Session × Option RegisterCallArgs :=
  match fetch with
  | .error status =>
    if status = 404 then
      (.ok (.redirect (.view id_)), sess, none)
    else
      (.error (.unboundLocalError "invite"), sess, none)
  | .ok invite =>
    match invite.reset_localpart with
    | none => (.ok (.redirect (.register id_)), sess, none)
    | some rl =>
      if method = Method.post ∧ fd.validateB then
        let args : RegisterCallArgs := ⟨rl, fd.password, id_⟩
        match remote with
        | .ok jid =>
          (.ok (.redirect .reset_success),
           sessionSet sess INVITE_SESSION_JID jid, some args)
        | .error status =>
          if status = 403 then
            (.error (.attributeError "localpart"), sess, some args)
          else if status = 404 then
            (.ok (.redirect (.view id_)), sess, some args)
          else
            -- the source re-raises the ClientResponseError here
            (.error (.clientResponseError status), sess, some args)
      else
        let form :=
          if method = Method.post then ResetFormState.afterValidate fd
          else ResetFormState.initial
        (.ok (.page "invite_reset.html" invite form), sess, none)

/-- A rendered success page: the template and the `jid` passed to it. -/
structure SuccessPage where
  template : String
  jid : String
deriving Repr, DecidableEq

/-- Handler `success()` (route `GET|POST /success`): a pure read of the
session, which is returned unchanged. -/
def success (sess : Session) : SuccessPage × Session :=
  (⟨"invite_success.html", sessionGet sess INVITE_SESSION_JID ""⟩, sess)

/-- Handler `reset_success()` (route `GET|POST /success/reset`). -/
def reset_success (sess : Session) : SuccessPage × Session :=
  (⟨"invite_reset_success.html", sessionGet sess INVITE_SESSION_JID ""⟩, sess)

/-- Reading a key immediately after writing it yields the written value. -/
theorem sessionGet_sessionSet (s : Session) (k v d : String) :
    sessionGet (sessionSet s k v) k d = v := by
  simp [sessionGet, sessionSet, List.find?]

/-- A register submission whose password or password confirmation is empty
fails the declared validators of `RegisterForm`. -/
theorem RegisterFormData.confirmErrors_ne_nil_of_empty (fd : RegisterFormData)
    (h : fd.password = "" ∨ fd.password_confirm = "") :
    fd.confirmErrors ≠ [] := by
  rcases h with h | h
  · by_cases hc : fd.password_confirm = ""
    · simp [RegisterFormData.confirmErrors, hc]
    · simp [RegisterFormData.confirmErrors, hc, h]
  · simp [RegisterFormData.confirmErrors, h]

/-- A register submission with differing password and confirmation fails the
declared validators of `RegisterForm`. -/
theorem RegisterFormData.confirmErrors_ne_nil_of_mismatch (fd : RegisterFormData)
    (h : fd.password_confirm ≠ fd.password) :
    fd.confirmErrors ≠ [] := by
  by_cases hc : fd.password_confirm = ""
  · simp [RegisterFormData.confirmErrors, hc]
  · simp [RegisterFormData.confirmErrors, hc, h]

/-- `validate()` is false exactly when some validator produced an error. -/
theorem RegisterFormData.validateB_eq_false (fd : RegisterFormData)
    (h : fd.confirmErrors ≠ []) : fd.validateB = false := by
  unfold RegisterFormData.validateB
  cases e : fd.confirmErrors with
  | nil => exact absurd e h
  | cons a t => simp [e]

/-- C1: at an unmapped remote status (500), the `view` fetch handler and the
register/reset submission handlers re-raise the `ClientResponseError`, but the
fetch handlers of `register` and `reset` swallow the caught exception (their
`except` block has no `raise`) and the request instead dies on the unbound
`invite` variable with an `UnboundLocalError`: the caught status is silently
swallowed there, contrary to the claim. -/
theorem C1_unmapped_status_swallowed_in_register_reset_fetch :
    view "i1" (Except.error 500) "apple"
      = Except.error (PyError.clientResponseError 500)
    ∧ (register "i1" (Except.error 500) Method.get ⟨"", "", ""⟩
        (Except.error 500) []).1
      = Except.error (PyError.unboundLocalError "invite")
    ∧ (reset "i1" (Except.error 500) Method.get ⟨"", ""⟩
        (Except.error 500) []).1
      = Except.error (PyError.unboundLocalError "invite")
    ∧ (register "i1" (Except.ok ⟨"ex.org", none, "xmpp:a"⟩) Method.post
        ⟨"u", "pw", "pw"⟩ (Except.error 500) []).1
      = Except.error (PyError.clientResponseError 500)
    ∧ (reset "i1" (Except.ok ⟨"ex.org", some "alice", "xmpp:a"⟩) Method.post
        ⟨"pw", "pw"⟩ (Except.error 500) []).1
      = Except.error (PyError.clientResponseError 500) :=
  ⟨rfl, rfl, rfl, rfl, rfl⟩

/-- C2: for a successfully fetched invite, hitting `register` with a
reset-type invite redirects to `reset`, and hitting `reset` with a
register-type invite redirects to `register`; the wrong path neither errors
nor renders a form. -/
theorem C2_wrong_path_redirects (id_ : String) (inv : Invite) (method : Method)
    (rfd : RegisterFormData) (sfd : ResetFormData) (remote : Except Nat String)
    (sess : Session) :
    (inv.reset_localpart.isSome = true →
      (register id_ (Except.ok inv) method rfd remote sess).1
        = Except.ok (RegisterResponse.redirect (Url.reset id_)))
    ∧ (inv.reset_localpart = none →
      (reset id_ (Except.ok inv) method sfd remote sess).1
        = Except.ok (ResetResponse.redirect (Url.register id_))) := by
  constructor
  · intro h
    simp [register, h]
  · intro h
    simp [reset, h]

/-- C2 witness: concrete wrong-path requests redirect to the correct path. -/
theorem C2_wrong_path_redirects_witness :
    (register "i1" (Except.ok ⟨"ex.org", some "alice", "xmpp:a"⟩) Method.get
        ⟨"", "", ""⟩ (Except.error 0) []).1
      = Except.ok (RegisterResponse.redirect (Url.reset "i1"))
    ∧ (reset "i1" (Except.ok ⟨"ex.org", none, "xmpp:a"⟩) Method.get
        ⟨"", ""⟩ (Except.error 0) []).1
      = Except.ok (ResetResponse.redirect (Url.register "i1")) :=
  ⟨(C2_wrong_path_redirects "i1" ⟨"ex.org", some "alice", "xmpp:a"⟩ Method.get
      ⟨"", "", ""⟩ ⟨"", ""⟩ (Except.error 0) []).1 rfl,
   (C2_wrong_path_redirects "i1" ⟨"ex.org", none, "xmpp:a"⟩ Method.get
      ⟨"", "", ""⟩ ⟨"", ""⟩ (Except.error 0) []).2 rfl⟩

/-- C3: when the invite fetch fails with status 404, `view` returns the
invalid-invite page with response code 404, and `register` and `reset` each
redirect to `view` for the same id. -/
theorem C3_fetch_not_found (id_ : String) (method : Method)
    (rfd : RegisterFormData) (sfd : ResetFormData) (remote : Except Nat String)
    (sess : Session) (apple : String) :
    view id_ (Except.error 404) apple
      = Except.ok (ViewResponse.invalidPage "invite_invalid.html" 404)
    ∧ (register id_ (Except.error 404) method rfd remote sess).1
      = Except.ok (RegisterResponse.redirect (Url.view id_))
    ∧ (reset id_ (Except.error 404) method sfd remote sess).1
      = Except.ok (ResetResponse.redirect (Url.view id_)) :=
  ⟨rfl, rfl, rfl⟩

/-- C4: on a valid reset submission the remote call's username is fixed to
`invite.reset_localpart`, success redirects to the reset-success page and a
404 redirects to view — but on a 403 the handler raises `AttributeError`
(`ResetForm` has no `localpart` field) instead of attaching the declined
error and re-rendering the form. -/
theorem C4_reset_forbidden_raises_attribute_error :
    (reset "i1" (Except.ok ⟨"ex.org", some "alice", "xmpp:a"⟩) Method.post
        ⟨"pw", "pw"⟩ (Except.error 403) []).1
      = Except.error (PyError.attributeError "localpart")
    ∧ (reset "i1" (Except.ok ⟨"ex.org", some "alice", "xmpp:a"⟩) Method.post
        ⟨"pw", "pw"⟩ (Except.ok "alice@ex.org") []).2.2
      = some ⟨"alice", "pw", "i1"⟩
    ∧ (reset "i1" (Except.ok ⟨"ex.org", some "alice", "xmpp:a"⟩) Method.post
        ⟨"pw", "pw"⟩ (Except.ok "alice@ex.org") []).1
      = Except.ok (ResetResponse.redirect Url.reset_success)
    ∧ (reset "i1" (Except.ok ⟨"ex.org", some "alice", "xmpp:a"⟩) Method.post
        ⟨"pw", "pw"⟩ (Except.error 404) []).1
      = Except.ok (ResetResponse.redirect (Url.view "i1")) :=
  ⟨rfl, rfl, rfl, rfl⟩

/-- C5 counterexample: for a reset-type invite the successful view response is
the reset-flow page returned as a bare template string, and it carries no
`Link` header, contrary to the claim that every successful view response
carries one. -/
theorem C5_reset_view_carries_no_link_header :
    view "i1" (Except.ok ⟨"ex.org", some "alice", "xmpp:a"⟩) "apple"
      = Except.ok (ViewResponse.resetViewPage "invite_reset_view.html"
          ⟨"ex.org", some "alice", "xmpp:a"⟩ "i1" "alice@ex.org")
    ∧ ViewResponse.linkHeaderOf
        (ViewResponse.resetViewPage "invite_reset_view.html"
          ⟨"ex.org", some "alice", "xmpp:a"⟩ "i1" "alice@ex.org") = none :=
  ⟨rfl, rfl⟩

/-- C5 amended: a successful fetch renders the invite view page — the
reset-flow variant when `reset_localpart` is set — and the
`Link: <xmpp-uri> rel="alternate"` header is carried only on the register-type
view page; the reset-flow variant is a bare template string with no header. -/
theorem C5_view_success (id_ apple : String) (inv : Invite) :
    (inv.reset_localpart = none →
      view id_ (Except.ok inv) apple
        = Except.ok (ViewResponse.mainPage "invite_view.html" inv id_
            (play_store_url inv.xmpp_uri) apple
            "market://details?id=org.snikket.android"
            ("<" ++ inv.xmpp_uri ++ "> rel=\"alternate\"")))
    ∧ (∀ rl, inv.reset_localpart = some rl →
      view id_ (Except.ok inv) apple
        = Except.ok (ViewResponse.resetViewPage "invite_reset_view.html" inv id_
            (rl ++ "@" ++ inv.domain))) := by
  constructor
  · intro h
    simp [view, h]
  · intro rl h
    simp [view, h]

/-- C5 witness: concrete successful views of a register-type and a reset-type
invite. -/
theorem C5_view_success_witness :
    view "i1" (Except.ok ⟨"ex.org", none, "xmpp:a"⟩) "apple"
      = Except.ok (ViewResponse.mainPage "invite_view.html"
          ⟨"ex.org", none, "xmpp:a"⟩ "i1" (play_store_url "xmpp:a") "apple"
          "market://details?id=org.snikket.android"
          ("<" ++ "xmpp:a" ++ "> rel=\"alternate\""))
    ∧ view "i2" (Except.ok ⟨"ex.org", some "alice", "xmpp:b"⟩) "apple"
      = Except.ok (ViewResponse.resetViewPage "invite_reset_view.html"
          ⟨"ex.org", some "alice", "xmpp:b"⟩ "i2" ("alice" ++ "@" ++ "ex.org")) :=
  ⟨(C5_view_success "i1" "apple" ⟨"ex.org", none, "xmpp:a"⟩).1 rfl,
   (C5_view_success "i2" "apple" ⟨"ex.org", some "alice", "xmpp:b"⟩).2 "alice" rfl⟩

/-- C6 counterexample: a register submission with the username missing (empty)
passes local validation — `localpart` declares no validators — so a remote
register call is issued with the empty username instead of the submission
being rejected locally. -/
theorem C6_missing_username_not_rejected_locally :
    (register "i1" (Except.ok ⟨"ex.org", none, "xmpp:a"⟩) Method.post
        ⟨"", "pw", "pw"⟩ (Except.ok "j@ex.org") []).2.2
      = some ⟨"", "pw", "i1"⟩
    ∧ (register "i1" (Except.ok ⟨"ex.org", none, "xmpp:a"⟩) Method.post
        ⟨"", "pw", "pw"⟩ (Except.ok "j@ex.org") []).1
      = Except.ok (RegisterResponse.redirect Url.success) :=
  ⟨rfl, rfl⟩

/-- C6 amended: a register submission missing the password or the password
confirmation is rejected locally by the confirmation field's validators: the
form is re-rendered with field errors, the session is untouched and no remote
call is issued. (A missing username alone is not rejected locally, since the
username field declares no validators.) -/
theorem C6_missing_password_fields_rejected (id_ : String) (inv : Invite)
    (fd : RegisterFormData) (remote : Except Nat String) (sess : Session)
    (hr : inv.reset_localpart = none)
    (h : fd.password = "" ∨ fd.password_confirm = "") :
    register id_ (Except.ok inv) Method.post fd remote sess
      = (Except.ok (RegisterResponse.page "invite_register.html" inv
          (RegisterFormState.afterValidate fd)), sess, none)
    ∧ (RegisterFormState.afterValidate fd).password_confirm_errors ≠ [] := by
  have herr : fd.confirmErrors ≠ [] :=
    RegisterFormData.confirmErrors_ne_nil_of_empty fd h
  have hv : fd.validateB = false := RegisterFormData.validateB_eq_false fd herr
  constructor
  · simp [register, hr, hv]
  · simpa [RegisterFormState.afterValidate] using herr

/-- C6 amended witness: a concrete submission with an empty password is
rejected locally with a field error and no remote call. -/
theorem C6_missing_password_fields_rejected_witness :
    register "i1" (Except.ok ⟨"ex.org", none, "xmpp:a"⟩) Method.post
        ⟨"u", "", ""⟩ (Except.error 0) []
      = (Except.ok (RegisterResponse.page "invite_register.html"
          ⟨"ex.org", none, "xmpp:a"⟩
          (RegisterFormState.afterValidate ⟨"u", "", ""⟩)), [], none)
    ∧ (RegisterFormState.afterValidate ⟨"u", "", ""⟩).password_confirm_errors ≠ [] :=
  C6_missing_password_fields_rejected "i1" ⟨"ex.org", none, "xmpp:a"⟩
    ⟨"u", "", ""⟩ (Except.error 0) [] rfl (Or.inl rfl)

/-- C7 counterexample: password "pw" with empty confirmation is a submission
whose password fields differ; no remote call is issued and the form
re-renders, but the confirmation field carries the required-field error, not
the confirmation-mismatch error the claim promises. -/
theorem C7_empty_confirmation_gets_required_error :
    (register "i1" (Except.ok ⟨"ex.org", none, "xmpp:a"⟩) Method.post
        ⟨"u", "pw", ""⟩ (Except.ok "j@ex.org") []).2.2 = none
    ∧ (register "i1" (Except.ok ⟨"ex.org", none, "xmpp:a"⟩) Method.post
        ⟨"u", "pw", ""⟩ (Except.ok "j@ex.org") []).1
      = Except.ok (RegisterResponse.page "invite_register.html"
          ⟨"ex.org", none, "xmpp:a"⟩
          (RegisterFormState.afterValidate ⟨"u", "pw", ""⟩))
    ∧ (RegisterFormState.afterValidate ⟨"u", "pw", ""⟩).password_confirm_errors
      = ["This field is required."]
    ∧ ¬ "The passwords must match."
        ∈ (RegisterFormState.afterValidate ⟨"u", "pw", ""⟩).password_confirm_errors := by
  refine ⟨rfl, rfl, rfl, by decide⟩

/-- C7 amended: whenever password and confirmation differ, no remote call is
issued and the form re-renders with an error on the confirmation field — the
mismatch message when a confirmation was entered, the required-field message
when the confirmation is empty. -/
theorem C7_mismatched_passwords_no_remote_call (id_ : String) (inv : Invite)
    (fd : RegisterFormData) (remote : Except Nat String) (sess : Session)
    (hr : inv.reset_localpart = none)
    (h : fd.password_confirm ≠ fd.password) :
    register id_ (Except.ok inv) Method.post fd remote sess
      = (Except.ok (RegisterResponse.page "invite_register.html" inv
          (RegisterFormState.afterValidate fd)), sess, none)
    ∧ (fd.password_confirm ≠ "" →
        (RegisterFormState.afterValidate fd).password_confirm_errors
          = ["The passwords must match."])
    ∧ (fd.password_confirm = "" →
        (RegisterFormState.afterValidate fd).password_confirm_errors
          = ["This field is required."]) := by
  have herr : fd.confirmErrors ≠ [] :=
    RegisterFormData.confirmErrors_ne_nil_of_mismatch fd h
  have hv : fd.validateB = false := RegisterFormData.validateB_eq_false fd herr
  refine ⟨by simp [register, hr, hv], ?_, ?_⟩
  · intro hc
    simp [RegisterFormState.afterValidate, RegisterFormData.confirmErrors, hc, h]
  · intro hc
    simp [RegisterFormState.afterValidate, RegisterFormData.confirmErrors, hc]

/-- C7 amended witness: a concrete mismatched submission is rejected locally
with the mismatch message and no remote call. -/
theorem C7_mismatched_passwords_no_remote_call_witness :
    register "i1" (Except.ok ⟨"ex.org", none, "xmpp:a"⟩) Method.post
        ⟨"u", "pw", "qw"⟩ (Except.error 0) []
      = (Except.ok (RegisterResponse.page "invite_register.html"
          ⟨"ex.org", none, "xmpp:a"⟩
          (RegisterFormState.afterValidate ⟨"u", "pw", "qw"⟩)), [], none)
    ∧ ((⟨"u", "pw", "qw"⟩ : RegisterFormData).password_confirm ≠ "" →
        (RegisterFormState.afterValidate ⟨"u", "pw", "qw"⟩).password_confirm_errors
          = ["The passwords must match."])
    ∧ ((⟨"u", "pw", "qw"⟩ : RegisterFormData).password_confirm = "" →
        (RegisterFormState.afterValidate ⟨"u", "pw", "qw"⟩).password_confirm_errors
          = ["This field is required."]) :=
  C7_mismatched_passwords_no_remote_call "i1" ⟨"ex.org", none, "xmpp:a"⟩
    ⟨"u", "pw", "qw"⟩ (Except.error 0) [] rfl (by decide)

/-- C8: for a locally valid register submission, remote statuses 409, 403 and
400 attach the corresponding message to the `localpart` field and re-render
the form with the submitted username preserved; remote status 404 redirects
to view. -/
theorem C8_register_remote_error_mapping (id_ : String) (inv : Invite)
    (fd : RegisterFormData) (sess : Session)
    (hr : inv.reset_localpart = none) (hv : fd.validateB = true) :
    ((register id_ (Except.ok inv) Method.post fd (Except.error 409) sess).1
      = Except.ok (RegisterResponse.page "invite_register.html" inv
          ((RegisterFormState.afterValidate fd).appendLocalpartError
            "That username is already taken.")))
    ∧ ((register id_ (Except.ok inv) Method.post fd (Except.error 403) sess).1
      = Except.ok (RegisterResponse.page "invite_register.html" inv
          ((RegisterFormState.afterValidate fd).appendLocalpartError
            "Registration was declined for unknown reasons.")))
    ∧ ((register id_ (Except.ok inv) Method.post fd (Except.error 400) sess).1
      = Except.ok (RegisterResponse.page "invite_register.html" inv
          ((RegisterFormState.afterValidate fd).appendLocalpartError
            "The username is not valid.")))
    ∧ ((register id_ (Except.ok inv) Method.post fd (Except.error 404) sess).1
      = Except.ok (RegisterResponse.redirect (Url.view id_)))
    ∧ (∀ msg,
        ((RegisterFormState.afterValidate fd).appendLocalpartError msg).localpart_data
          = fd.localpart
        ∧ ((RegisterFormState.afterValidate fd).appendLocalpartError msg).localpart_errors
          = [msg]) := by
  refine ⟨?_, ?_, ?_, ?_, ?_⟩
  · simp [register, hr, hv]
  · simp [register, hr, hv]
  · simp [register, hr, hv]
  · simp [register, hr, hv]
  · intro msg
    exact ⟨rfl, rfl⟩

/-- C8 witness: the error mapping at a concrete valid submission. -/
theorem C8_register_remote_error_mapping_witness :
    ((register "i1" (Except.ok ⟨"ex.org", none, "xmpp:a"⟩) Method.post
        ⟨"u", "pw", "pw"⟩ (Except.error 409) []).1
      = Except.ok (RegisterResponse.page "invite_register.html"
          ⟨"ex.org", none, "xmpp:a"⟩
          ((RegisterFormState.afterValidate ⟨"u", "pw", "pw"⟩).appendLocalpartError
            "That username is already taken.")))
    ∧ ((register "i1" (Except.ok ⟨"ex.org", none, "xmpp:a"⟩) Method.post
        ⟨"u", "pw", "pw"⟩ (Except.error 403) []).1
      = Except.ok (RegisterResponse.page "invite_register.html"
          ⟨"ex.org", none, "xmpp:a"⟩
          ((RegisterFormState.afterValidate ⟨"u", "pw", "pw"⟩).appendLocalpartError
            "Registration was declined for unknown reasons.")))
    ∧ ((register "i1" (Except.ok ⟨"ex.org", none, "xmpp:a"⟩) Method.post
        ⟨"u", "pw", "pw"⟩ (Except.error 400) []).1
      = Except.ok (RegisterResponse.page "invite_register.html"
          ⟨"ex.org", none, "xmpp:a"⟩
          ((RegisterFormState.afterValidate ⟨"u", "pw", "pw"⟩).appendLocalpartError
            "The username is not valid.")))
    ∧ ((register "i1" (Except.ok ⟨"ex.org", none, "xmpp:a"⟩) Method.post
        ⟨"u", "pw", "pw"⟩ (Except.error 404) []).1
      = Except.ok (RegisterResponse.redirect (Url.view "i1")))
    ∧ (∀ msg,
        ((RegisterFormState.afterValidate ⟨"u", "pw", "pw"⟩).appendLocalpartError
            msg).localpart_data
          = ("u" : String)
        ∧ ((RegisterFormState.afterValidate ⟨"u", "pw", "pw"⟩).appendLocalpartError
            msg).localpart_errors
          = [msg]) :=
  C8_register_remote_error_mapping "i1" ⟨"ex.org", none, "xmpp:a"⟩
    ⟨"u", "pw", "pw"⟩ [] rfl rfl

/-- C9: a successful register or reset call writes the returned identifier to
the single session key; the success pages render the stored value, default to
the empty string when it is absent, and return the session unchanged, so
repeated visits render the same identifier. -/
theorem C9_session_write_and_success_pages (id_ : String) (inv inv' : Invite)
    (fd : RegisterFormData) (sfd : ResetFormData) (jid rl : String)
    (sess : Session)
    (hr : inv.reset_localpart = none) (hv : fd.validateB = true)
    (hr' : inv'.reset_localpart = some rl) (hv' : sfd.validateB = true) :
    (register id_ (Except.ok inv) Method.post fd (Except.ok jid) sess).2.1
      = sessionSet sess INVITE_SESSION_JID jid
    ∧ (reset id_ (Except.ok inv') Method.post sfd (Except.ok jid) sess).2.1
      = sessionSet sess INVITE_SESSION_JID jid
    ∧ (success sess).1.jid = sessionGet sess INVITE_SESSION_JID ""
    ∧ (success sess).2 = sess
    ∧ (reset_success sess).1.jid = sessionGet sess INVITE_SESSION_JID ""
    ∧ (reset_success sess).2 = sess
    ∧ (success []).1.jid = ""
    ∧ (success (sessionSet sess INVITE_SESSION_JID jid)).1.jid = jid
    ∧ (success ((success sess).2)).1.jid = (success sess).1.jid := by
  refine ⟨?_, ?_, rfl, rfl, rfl, rfl, rfl, ?_, rfl⟩
  · simp [register, hr, hv]
  · simp [reset, hr', hv']
  · simp [success, sessionGet_sessionSet]

/-- C9 witness: the session write and success-page reads at concrete inputs. -/
theorem C9_session_write_and_success_pages_witness :
    (register "i1" (Except.ok ⟨"ex.org", none, "xmpp:a"⟩) Method.post
        ⟨"u", "pw", "pw"⟩ (Except.ok "u@ex.org") []).2.1
      = sessionSet [] INVITE_SESSION_JID "u@ex.org"
    ∧ (reset "i2" (Except.ok ⟨"ex.org", some "alice", "xmpp:b"⟩) Method.post
        ⟨"pw", "pw"⟩ (Except.ok "u@ex.org") []).2.1
      = sessionSet [] INVITE_SESSION_JID "u@ex.org"
    ∧ (success []).1.jid = sessionGet [] INVITE_SESSION_JID ""
    ∧ (success []).2 = []
    ∧ (reset_success []).1.jid = sessionGet [] INVITE_SESSION_JID ""
    ∧ (reset_success []).2 = []
    ∧ (success []).1.jid = ""
    ∧ (success (sessionSet [] INVITE_SESSION_JID "u@ex.org")).1.jid = "u@ex.org"
    ∧ (success ((success []).2)).1.jid = (success []).1.jid :=
  C9_session_write_and_success_pages "i1" ⟨"ex.org", none, "xmpp:a"⟩
    ⟨"ex.org", some "alice", "xmpp:b"⟩ ⟨"u", "pw", "pw"⟩ ⟨"pw", "pw"⟩
    "u@ex.org" "alice" [] rfl rfl rfl rfl

/-- C10: both flows write the same session key, so each success page renders
whichever identifier was written most recently by either flow; in particular,
after a successful registration the reset-success page renders the
registration's identifier. -/
theorem C10_shared_session_key (id_ : String) (inv inv' : Invite)
    (fd : RegisterFormData) (sfd : ResetFormData) (jid jid' rl : String)
    (sess : Session)
    (hr : inv.reset_localpart = none) (hv : fd.validateB = true)
    (hr' : inv'.reset_localpart = some rl) (hv' : sfd.validateB = true) :
    (reset_success
        ((register id_ (Except.ok inv) Method.post fd (Except.ok jid) sess).2.1)).1.jid
      = jid
    ∧ (success
        ((register id_ (Except.ok inv) Method.post fd (Except.ok jid) sess).2.1)).1.jid
      = jid
    ∧ (success
        ((reset id_ (Except.ok inv') Method.post sfd (Except.ok jid') sess).2.1)).1.jid
      = jid'
    ∧ (reset_success
        ((reset id_ (Except.ok inv') Method.post sfd (Except.ok jid') sess).2.1)).1.jid
      = jid' := by
  refine ⟨?_, ?_, ?_, ?_⟩
  · simp [register, hr, hv, reset_success, sessionGet_sessionSet]
  · simp [register, hr, hv, success, sessionGet_sessionSet]
  · simp [reset, hr', hv', success, sessionGet_sessionSet]
  · simp [reset, hr', hv', reset_success, sessionGet_sessionSet]

/-- C10 witness: after a concrete successful registration, both success pages
render the registration's identifier; likewise for a reset. -/
theorem C10_shared_session_key_witness :
    (reset_success
        ((register "i1" (Except.ok ⟨"ex.org", none, "xmpp:a"⟩) Method.post
          ⟨"u", "pw", "pw"⟩ (Except.ok "u@ex.org") []).2.1)).1.jid
      = "u@ex.org"
    ∧ (success
        ((register "i1" (Except.ok ⟨"ex.org", none, "xmpp:a"⟩) Method.post
          ⟨"u", "pw", "pw"⟩ (Except.ok "u@ex.org") []).2.1)).1.jid
      = "u@ex.org"
    ∧ (success
        ((reset "i1" (Except.ok ⟨"ex.org", some "alice", "xmpp:b"⟩) Method.post
          ⟨"pw", "pw"⟩ (Except.ok "alice@ex.org") []).2.1)).1.jid
      = "alice@ex.org"
    ∧ (reset_success
        ((reset "i1" (Except.ok ⟨"ex.org", some "alice", "xmpp:b"⟩) Method.post
          ⟨"pw", "pw"⟩ (Except.ok "alice@ex.org") []).2.1)).1.jid
      = "alice@ex.org" :=
  C10_shared_session_key "i1" ⟨"ex.org", none, "xmpp:a"⟩
    ⟨"ex.org", some "alice", "xmpp:b"⟩ ⟨"u", "pw", "pw"⟩ ⟨"pw", "pw"⟩
    "u@ex.org" "alice@ex.org" "alice" [] rfl rfl rfl rfl

end SnikketInvite
